import Mathlib

/-!
Shallow embedding of the openepo reference implementation
(src/typescript/lib/main.ts and src/typescript/lib/transmitter.ts).

The transmitter and receiver finite state machines are modelled as pure
step functions over explicit state records.  Side effects (frames sent on
a bus, host actor callbacks) are returned as event lists, in the order the
TypeScript code performs them.  Scheduler timers are modelled as the
pending delay in milliseconds (`Option Nat`): arming a timer stores the
delay, cancelling it stores `none`.  Randomness (session ids, keys,
nonces) enters as explicit parameters where the code draws from the PRNG.

Frames follow the TypeScript data model: a frame has an unencrypted half
and an encrypted half; a `ProtectedFrame` carries the encrypted half
opaquely together with the protection algorithm, and `deprotectFrame`
recovers it only when the expected algorithm matches (mirroring the
structural-equality check in `deprotectFrame` in main.ts).  Bodies of the
different message types are flattened into one record per half; a field
that a given message type does not carry keeps its default value, the way
the corresponding TypeScript object simply lacks that property.
-/

namespace Openepo

inductive Version where
  | UNKNOWN
  | V1
deriving DecidableEq, Repr

inductive MessageType where
  | UNKNOWN
  | HELLO
  | BOUND
  | BIND
  | UNBIND
  | CONFIGURE
  | ACT
deriving DecidableEq, Repr

inductive ProtectionAlgorithmType where
  | UNKNOWN
  | AEAD_AES_128_OCB_TAGLEN128
  | AEAD_AES_128_OCB_TAGLEN64
deriving DecidableEq, Repr

structure ProtectionAlgorithm where
  type : ProtectionAlgorithmType
  sessionKey : String
deriving DecidableEq, Repr

inductive InterfaceType where
  | UNKNOWN
  | BUTTON_ACT
deriving DecidableEq, Repr

structure Interface where
  type : InterfaceType
deriving DecidableEq, Repr

def BUTTON_ACT_INTERFACE : Interface :=
  { type := InterfaceType.BUTTON_ACT }

structure Action where
  interface : InterfaceType
deriving DecidableEq, Repr

/-- Unencrypted half of a public frame: the common header (version, type,
session id, protection nonce) plus the unencrypted BIND body field
`protectionAlgorithmType` (meaningful only when `type = BIND`). -/
structure UnencryptedPart where
  version : Version := Version.V1
  type : MessageType
  sessionId : String
  nonce : String := ""
  protectionAlgorithmType : ProtectionAlgorithmType := ProtectionAlgorithmType.UNKNOWN
deriving DecidableEq, Repr

/-- Encrypted half of a public frame: the encrypted header (`seqNo`) plus
the union of the encrypted bodies (BIND carries `transmitterId` and
`interfaceTypes`, ACT carries `interface`). -/
structure EncryptedPart where
  seqNo : Nat
  transmitterId : String := ""
  interfaceTypes : List InterfaceType := []
  interface : InterfaceType := InterfaceType.UNKNOWN
deriving DecidableEq, Repr

/-- A public frame after decryption: both halves in the clear. -/
structure Frame where
  unencrypted : UnencryptedPart
  encrypted : EncryptedPart
deriving DecidableEq, Repr

/-- A public frame as it travels on the public bus: the encrypted half is
opaque and tied to the protection algorithm that sealed it. -/
structure ProtectedFrame where
  unencrypted : UnencryptedPart
  algo : ProtectionAlgorithm
  protectedPart : EncryptedPart
deriving DecidableEq, Repr

def protectFrame (algo : ProtectionAlgorithm) (frame : Frame) : ProtectedFrame :=
  { unencrypted := frame.unencrypted
    algo := algo
    protectedPart := frame.encrypted }

/-- Mirrors `deprotectFrame` in main.ts: decryption succeeds exactly when
the expected algorithm equals the one on the frame (the TypeScript code
compares by reference or JSON serialization, i.e. structurally). -/
def deprotectFrame (algo : ProtectionAlgorithm) (frame : ProtectedFrame) : Option Frame :=
  if frame.algo = algo then
    some { unencrypted := frame.unencrypted, encrypted := frame.protectedPart }
  else
    none

/-- Private-bus frames (main.ts `PrivateFrame`): HELLO carries the
candidate protections and supported interfaces in the clear; BOUND as
sent by `Receiver.send` carries only the header. -/
inductive PrivateFrame where
  | hello (sessionId : String) (protectionAlgorithms : List ProtectionAlgorithm)
      (supportedInterfaces : List Interface)
  | bound (sessionId : String)
deriving DecidableEq, Repr

/-! ## Session store (main.ts `Map<string, SessionRecord>`) -/

structure SessionRecord where
  protection : ProtectionAlgorithm
  prevSeqNo : Nat
deriving DecidableEq, Repr

abbrev SessionStore := List (String × SessionRecord)

def sessionsGet (m : SessionStore) (k : String) : Option SessionRecord :=
  (m.find? fun kv => kv.1 == k).map Prod.snd

def sessionsSet (m : SessionStore) (k : String) (v : SessionRecord) : SessionStore :=
  if (m.find? fun kv => kv.1 == k).isSome then
    m.map fun kv => if kv.1 == k then (k, v) else kv
  else
    m ++ [(k, v)]

def sessionsDelete (m : SessionStore) (k : String) : SessionStore :=
  m.filter fun kv => kv.1 != k

/-! ## Receiver FSM (main.ts `Receiver`) -/

inductive ReceiverState where
  | STARTING
  | IDLE
  | CONFIGURING
  | PAIRING
  | UNPAIRING
deriving DecidableEq, Repr

/-- Host-visible effects of a receiver step, in execution order. -/
inductive ReceiverEvent where
  | sentPrivate (msg : PrivateFrame)
  | stateChanged (state : ReceiverState)
  | act (action : Action)
deriving DecidableEq, Repr

/-- Receiver state record.  `subscribed` models the live public-bus
subscription (`publicStop` not yet called); `stateTimeout` the pending
state timer of `setState`; `pairingInterval` whether the periodic HELLO
interval of `setPairing` is armed. -/
structure Receiver where
  subscribed : Bool := true
  state : ReceiverState := ReceiverState.STARTING
  stateTimeout : Option Nat := none
  pairingInterval : Bool := false
  sessions : SessionStore := []
  newSessionId : Option String := none
  newProtections : Option (List ProtectionAlgorithm) := none
deriving DecidableEq, Repr

def DEFAULT_PROTECTION_ALGORITHMS : List (String → ProtectionAlgorithm) :=
  [fun sessionKey =>
    { type := ProtectionAlgorithmType.AEAD_AES_128_OCB_TAGLEN64, sessionKey := sessionKey }]

/-- Mirrors the private `Receiver.setState`: `notify` is decided against
the old state, the state timer is re-armed only when a timeout is given,
and the HELLO interval is stopped whenever the new state is not PAIRING. -/
def Receiver.setState (r : Receiver) (state : ReceiverState) (idleTimeoutMs : Option Nat) :
    Receiver × List ReceiverEvent :=
  let notify := r.state ≠ state
  let r1 := { r with state := state }
  let r2 := match idleTimeoutMs with
    | some ms => { r1 with stateTimeout := some ms }
    | none => r1
  let r3 := if state ≠ ReceiverState.PAIRING then { r2 with pairingInterval := false } else r2
  (r3, if notify then [ReceiverEvent.stateChanged state] else [])

/-- `Receiver.setPairing`, with the PRNG draws (`sessionId`, `sessionKey`)
as explicit inputs and the host config `protectionAlgorithms` as an
explicit parameter (`none` selects `DEFAULT_PROTECTION_ALGORITHMS`). -/
def Receiver.setPairing (r : Receiver) (sessionId sessionKey : String)
    (configProtectionAlgorithms : Option (List (String → ProtectionAlgorithm))) :
    Receiver × List ReceiverEvent :=
  if r.state ≠ ReceiverState.CONFIGURING then
    (r, [])
  else
    let fns : List (String → ProtectionAlgorithm) :=
      configProtectionAlgorithms.getD DEFAULT_PROTECTION_ALGORITHMS
    let ps : List ProtectionAlgorithm := fns.map (fun fn => fn sessionKey)
    let r1 := { r with
      newSessionId := some sessionId
      newProtections := some ps }
    let out := r1.setState ReceiverState.PAIRING (some 10000)
    ({ out.1 with pairingInterval := true }, out.2)

def Receiver.setUnpairing (r : Receiver) : Receiver × List ReceiverEvent :=
  if r.state ≠ ReceiverState.CONFIGURING then
    (r, [])
  else
    r.setState ReceiverState.UNPAIRING (some 10000)

/-- `Receiver.close`: unsubscribe from the public bus and cancel the state
timer (`this.stateTimeout?.()`).  Nothing else is touched. -/
def Receiver.close (r : Receiver) : Receiver :=
  { r with subscribed := false, stateTimeout := none }

/-- The candidate-protection lookup on a BIND frame:
`this.newProtections?.filter((algo) => algo.type === pmsg.unencrypted.protectionAlgorithmType)[0]`. -/
def Receiver.bindProtection (r : Receiver) (pmsg : ProtectedFrame) : Option ProtectionAlgorithm :=
  r.newProtections.bind fun ps =>
    (ps.filter fun algo => algo.type == pmsg.unencrypted.protectionAlgorithmType).head?

def Receiver.findTransmitter (r : Receiver) (pmsg : ProtectedFrame) : Option SessionRecord :=
  sessionsGet r.sessions pmsg.unencrypted.sessionId

/-- Mirrors `Receiver.onPublicMsg`.  The BIND arm runs before any session
lookup and returns; the remaining message types are routed through
`findTransmitter` and `deprotectFrame` and then dispatched by type. -/
def Receiver.onPublicMsg (r : Receiver) (pmsg : ProtectedFrame) :
    Receiver × List ReceiverEvent :=
  if pmsg.unencrypted.type = MessageType.BIND then
    match r.bindProtection pmsg with
    | none => (r, [])
    | some protection =>
      match deprotectFrame protection pmsg with
      | none => (r, [])
      | some msg =>
        if r.state = ReceiverState.PAIRING then
          let sessionId := msg.unencrypted.sessionId
          if r.newSessionId = some sessionId then
            let r1 := { r with
              sessions := sessionsSet r.sessions sessionId
                { protection := protection, prevSeqNo := msg.encrypted.seqNo } }
            let r2 := { r1 with newSessionId := none, newProtections := none }
            let out := r2.setState ReceiverState.CONFIGURING (some 30000)
            (out.1, ReceiverEvent.sentPrivate (PrivateFrame.bound sessionId) :: out.2)
          else
            (r, [])
        else
          (r, [])
  else
    match r.findTransmitter pmsg with
    | none => (r, [])
    | some session =>
      match deprotectFrame session.protection pmsg with
      | none => (r, [])
      | some msg =>
        if msg.unencrypted.type = MessageType.UNBIND then
          if r.state = ReceiverState.UNPAIRING then
            let r1 := { r with sessions := sessionsDelete r.sessions msg.unencrypted.sessionId }
            r1.setState ReceiverState.IDLE none
          else
            (r, [])
        else if msg.unencrypted.type = MessageType.CONFIGURE then
          if r.state = ReceiverState.IDLE then
            r.setState ReceiverState.CONFIGURING (some 30000)
          else
            (r, [])
        else if msg.unencrypted.type = MessageType.ACT then
          if r.state = ReceiverState.IDLE ∨ r.state = ReceiverState.CONFIGURING then
            let out := r.setState ReceiverState.CONFIGURING (some 10000)
            if session.prevSeqNo < msg.encrypted.seqNo then
              let r2 := { out.1 with
                sessions := sessionsSet out.1.sessions pmsg.unencrypted.sessionId
                  { protection := session.protection, prevSeqNo := msg.encrypted.seqNo } }
              (r2, out.2 ++ [ReceiverEvent.act { interface := msg.encrypted.interface }])
            else
              (out.1, out.2)
          else
            (r, [])
        else
          (r, [])

/-- A delivery on the public bus: the handler only runs while subscribed. -/
def Receiver.deliverPublic (r : Receiver) (pmsg : ProtectedFrame) :
    Receiver × List ReceiverEvent :=
  if r.subscribed then r.onPublicMsg pmsg else (r, [])

/-- Process a list of public-bus deliveries to the handler, collecting
events in order. -/
def Receiver.runPublic (r : Receiver) : List ProtectedFrame → Receiver × List ReceiverEvent
  | [] => (r, [])
  | pmsg :: rest =>
    let out := r.onPublicMsg pmsg
    let out2 := out.1.runPublic rest
    (out2.1, out.2 ++ out2.2)

/-- Number of BOUND frames sent on the private bus among a list of
receiver events; `Receiver.onPublicMsg` sends BOUND exactly when it
installs a session record. -/
def countBoundSent (evts : List ReceiverEvent) : Nat :=
  (evts.filter fun e =>
    match e with
    | ReceiverEvent.sentPrivate (PrivateFrame.bound _) => true
    | _ => false).length

/-! ## Transmitter FSM (transmitter.ts `Transmitter`) -/

inductive TransmitterState where
  | IDLE
  | PAIRING
deriving DecidableEq, Repr

/-- Host-visible effects of a transmitter step, in execution order. -/
inductive TransmitterEvent where
  | sentPublic (pmsg : ProtectedFrame)
  | stateChanged (state : TransmitterState)
  | pairingChanged (paired : Bool)
deriving DecidableEq, Repr

/-- Transmitter state record.  `id` is `config.id`; `subscribed` models the
live private-bus subscription; `stateTimeout` the pending state timer. -/
structure Transmitter where
  subscribed : Bool := true
  id : String
  protection : Option ProtectionAlgorithm := none
  sessionId : Option String := none
  prevSeqNo : Nat := 0
  unbound : Bool := false
  state : TransmitterState := TransmitterState.IDLE
  stateTimeout : Option Nat := none
deriving DecidableEq, Repr

def Transmitter.isPaired (t : Transmitter) : Bool :=
  t.sessionId.isSome && !t.unbound

/-- `Transmitter.close`: unsubscribe from the private bus.  Nothing else
is touched. -/
def Transmitter.close (t : Transmitter) : Transmitter :=
  { t with subscribed := false }

/-- Mirrors the private `Transmitter.setState`. -/
def Transmitter.setState (t : Transmitter) (state : TransmitterState)
    (idleTimeoutMs : Option Nat) : Transmitter × List TransmitterEvent :=
  let notify := t.state ≠ state
  let t1 := { t with state := state }
  let t2 := match idleTimeoutMs with
    | some ms => { t1 with stateTimeout := some ms }
    | none => t1
  (t2, if notify then [TransmitterEvent.stateChanged state] else [])

/-- The `msg` argument of `Transmitter.send`: the body fields the caller
supplies, flattened; absent fields keep their defaults. -/
structure SendMsg where
  protectionAlgorithmType : ProtectionAlgorithmType := ProtectionAlgorithmType.UNKNOWN
  transmitterId : String := ""
  interfaceTypes : List InterfaceType := []
  interface : InterfaceType := InterfaceType.UNKNOWN
deriving DecidableEq, Repr

/-- Mirrors the private `Transmitter.send`: throws when no protection has
been adopted, otherwise increments `prevSeqNo` and emits the protected
frame.  The nonce the PRNG would produce is an explicit input. -/
def Transmitter.send (t : Transmitter) (type : MessageType) (msg : SendMsg) (nonce : String) :
    Except String (Transmitter × List TransmitterEvent) :=
  match t.protection with
  | none => Except.error "Unable to send without being paired"
  | some protection =>
    let t1 := { t with prevSeqNo := t.prevSeqNo + 1 }
    Except.ok (t1, [TransmitterEvent.sentPublic (protectFrame protection
      { unencrypted :=
          { version := Version.V1
            type := type
            sessionId := t.sessionId.getD ""
            nonce := nonce
            protectionAlgorithmType := msg.protectionAlgorithmType }
        encrypted :=
          { seqNo := t1.prevSeqNo
            transmitterId := msg.transmitterId
            interfaceTypes := msg.interfaceTypes
            interface := msg.interface } })])

/-- `Transmitter.act`. -/
def Transmitter.act (t : Transmitter) (action : Action) (nonce : String) :
    Except String (Transmitter × List TransmitterEvent) :=
  if !t.isPaired then
    Except.ok (t, [])
  else
    let out := if t.state ≠ TransmitterState.IDLE then
        t.setState TransmitterState.IDLE none
      else
        (t, [])
    match out.1.send MessageType.ACT { interface := action.interface } nonce with
    | Except.error e => Except.error e
    | Except.ok res => Except.ok (res.1, out.2 ++ res.2)

/-- `Transmitter.unpair`. -/
def Transmitter.unpair (t : Transmitter) (nonce : String) :
    Except String (Transmitter × List TransmitterEvent) :=
  if !t.isPaired then
    Except.ok (t, [])
  else
    match t.send MessageType.UNBIND { transmitterId := t.id } nonce with
    | Except.error e => Except.error e
    | Except.ok res =>
      let t1 := { res.1 with unbound := true }
      Except.ok (t1, res.2 ++ [TransmitterEvent.pairingChanged false])

/-- `Transmitter.setConfiguring`: guarded only by the `unbound` flag. -/
def Transmitter.setConfiguring (t : Transmitter) (nonce : String) :
    Except String (Transmitter × List TransmitterEvent) :=
  if t.unbound then
    Except.ok (t, [])
  else
    t.send MessageType.CONFIGURE {} nonce

def Transmitter.setPairing (t : Transmitter) : Transmitter × List TransmitterEvent :=
  t.setState TransmitterState.PAIRING (some 10000)

/-- Mirrors `Transmitter.onPrivateMsg`.  `filterInterfaces` is the host
config hook `config.filterInterfaces`; `nonce` the PRNG draw the BIND
send would consume.  Note the HELLO arm assigns `protection` from the
head of the list before checking it, and the BOUND arm checks neither the
session id nor any decryption. -/
def Transmitter.onPrivateMsg (t : Transmitter) (msg : PrivateFrame) (nonce : String)
    (filterInterfaces : Option (List Interface → List InterfaceType)) :
    Except String (Transmitter × List TransmitterEvent) :=
  match msg with
  | PrivateFrame.hello sessionId protectionAlgorithms supportedInterfaces =>
    if t.state = TransmitterState.PAIRING then
      let t1 := { t with protection := protectionAlgorithms.head? }
      match protectionAlgorithms.head? with
      | none => Except.ok (t1, [])
      | some protection =>
        let t2 := { t1 with sessionId := some sessionId, unbound := true }
        t2.send MessageType.BIND
          { protectionAlgorithmType := protection.type
            transmitterId := t.id
            interfaceTypes :=
              match filterInterfaces with
              | some fn => fn supportedInterfaces
              | none => supportedInterfaces.map (fun iface => iface.type) }
          nonce
    else
      Except.ok (t, [])
  | PrivateFrame.bound _ =>
    if t.state = TransmitterState.PAIRING then
      let t1 := { t with unbound := false }
      let out := t1.setState TransmitterState.IDLE none
      Except.ok (out.1, TransmitterEvent.pairingChanged true :: out.2)
    else
      Except.ok (t, [])

/-- A delivery on the private bus: the handler only runs while subscribed. -/
def Transmitter.deliverPrivate (t : Transmitter) (msg : PrivateFrame) (nonce : String)
    (filterInterfaces : Option (List Interface → List InterfaceType)) :
    Except String (Transmitter × List TransmitterEvent) :=
  if t.subscribed then t.onPrivateMsg msg nonce filterInterfaces else Except.ok (t, [])

/-! ## Concrete states and frames used to exercise the theorems -/

def algo64 : ProtectionAlgorithm :=
  { type := ProtectionAlgorithmType.AEAD_AES_128_OCB_TAGLEN64, sessionKey := "K" }

/-- Receiver in IDLE holding one session whose last accepted sequence
number is 5 (the state after scenario 2 of the spec accepted seq 5). -/
def rIdleS5 : Receiver :=
  { state := ReceiverState.IDLE
    sessions := [("S", { protection := algo64, prevSeqNo := 5 })] }

/-- An ACT frame for session `"S"` sealed under `algo64` with sequence
number 5: a replay of the last accepted frame of `rIdleS5`. -/
def actReplayFrame : ProtectedFrame :=
  { unencrypted := { type := MessageType.ACT, sessionId := "S" }
    algo := algo64
    protectedPart := { seqNo := 5, interface := InterfaceType.BUTTON_ACT } }

/-- Receiver in IDLE with no pending pairing, as in spec scenario 3. -/
def rIdleNoPairing : Receiver :=
  { state := ReceiverState.IDLE
    newProtections := some [algo64]
    newSessionId := some "S2" }

/-- A well-formed BIND frame for the pending session `"S2"`. -/
def bindFrameS2 : ProtectedFrame :=
  { unencrypted :=
      { type := MessageType.BIND
        sessionId := "S2"
        protectionAlgorithmType := ProtectionAlgorithmType.AEAD_AES_128_OCB_TAGLEN64 }
    algo := algo64
    protectedPart :=
      { seqNo := 1
        transmitterId := "T1"
        interfaceTypes := [InterfaceType.BUTTON_ACT] } }

/-- Receiver in PAIRING awaiting session `"S2"` under candidate `algo64`. -/
def rPairingS2 : Receiver :=
  { state := ReceiverState.PAIRING
    stateTimeout := some 10000
    pairingInterval := true
    newSessionId := some "S2"
    newProtections := some [algo64] }

/-- Receiver in UNPAIRING holding exactly one session record. -/
def rUnpairingS : Receiver :=
  { state := ReceiverState.UNPAIRING
    stateTimeout := some 10000
    sessions := [("S", { protection := algo64, prevSeqNo := 5 })] }

/-- An UNBIND frame for session `"S"` sealed under its key. -/
def unbindFrameS : ProtectedFrame :=
  { unencrypted := { type := MessageType.UNBIND, sessionId := "S" }
    algo := algo64
    protectedPart := { seqNo := 7 } }

/-- A freshly constructed transmitter: never paired. -/
def tFresh : Transmitter := { id := "T1" }

/-- A paired transmitter (completed a pairing for session `"A"`). -/
def tPaired : Transmitter :=
  { id := "T1", protection := some algo64, sessionId := some "A", prevSeqNo := 2 }

/-- A transmitter amid pairing: adopted session `"A"`, sent BIND, still
unbound, waiting for BOUND. -/
def tAwaitingBound : Transmitter :=
  { id := "T1"
    protection := some algo64
    sessionId := some "A"
    prevSeqNo := 1
    unbound := true
    state := TransmitterState.PAIRING
    stateTimeout := some 10000 }

/-- The receiver right after a `setPairing` call from CONFIGURING. -/
def rAfterSetPairing : Receiver :=
  (({ state := ReceiverState.CONFIGURING } : Receiver).setPairing "S2" "K" none).1

/-- The transmitter right after a `setPairing` call. -/
def tAfterSetPairing : Transmitter := tFresh.setPairing.1

/-! ## Helper lemmas -/

theorem receiver_setState_eq (r : Receiver) (s : ReceiverState) (t : Option Nat) :
    r.setState s t =
      ({ r with
          state := s
          stateTimeout := t.or r.stateTimeout
          pairingInterval := if s = ReceiverState.PAIRING then r.pairingInterval else false },
       if r.state = s then [] else [ReceiverEvent.stateChanged s]) := by
  unfold Receiver.setState
  cases t <;> by_cases h : s = ReceiverState.PAIRING <;> by_cases h2 : r.state = s <;>
    simp [h, h2, Option.or]

theorem transmitter_setState_eq (t : Transmitter) (s : TransmitterState) (ms : Option Nat) :
    t.setState s ms =
      ({ t with state := s, stateTimeout := ms.or t.stateTimeout },
       if t.state = s then [] else [TransmitterEvent.stateChanged s]) := by
  unfold Transmitter.setState
  cases ms <;> by_cases h2 : t.state = s <;> simp [h2, Option.or]

theorem deprotectFrame_eq {algo : ProtectionAlgorithm} {pmsg : ProtectedFrame} {msg : Frame}
    (h : deprotectFrame algo pmsg = some msg) :
    msg = { unencrypted := pmsg.unencrypted, encrypted := pmsg.protectedPart }
      ∧ pmsg.algo = algo := by
  unfold deprotectFrame at h
  split at h
  · exact ⟨(Option.some_inj.mp h).symm, by assumption⟩
  · exact absurd h (by simp)

theorem sessionsGet_isSome {m : SessionStore} {k : String} {s : SessionRecord}
    (h : sessionsGet m k = some s) : (m.find? fun kv => kv.1 == k).isSome := by
  unfold sessionsGet at h
  cases hf : m.find? fun kv => kv.1 == k <;> simp [hf] at h ⊢

theorem sessionsSet_cons_ne {kv : String × SessionRecord} {k : String}
    (h : (kv.1 == k) = false) (rest : SessionStore) (v : SessionRecord) :
    sessionsSet (kv :: rest) k v = kv :: sessionsSet rest k v := by
  have h' : ¬ kv.1 = k := by simpa using h
  unfold sessionsSet
  rw [List.find?_cons_of_neg _ (by simp [h'])]
  split <;> simp [h']

theorem sessionsGet_set_self (m : SessionStore) (k : String) (v : SessionRecord) :
    sessionsGet (sessionsSet m k v) k = some v := by
  induction m with
  | nil => simp [sessionsGet, sessionsSet]
  | cons kv rest ih =>
    by_cases h : (kv.1 == k) = true
    · have hk : kv.1 = k := by simpa using h
      unfold sessionsSet
      rw [List.find?_cons_of_pos _ (by simp [h])]
      simp only [Option.isSome_some, if_true, List.map_cons, h, if_pos]
      simp [sessionsGet]
    · rw [sessionsSet_cons_ne (by simpa using h)]
      unfold sessionsGet
      rw [List.find?_cons_of_neg _ (by simp_all)]
      exact ih

theorem sessionsSet_length_le (m : SessionStore) (k : String) (v : SessionRecord) :
    (sessionsSet m k v).length ≤ m.length + 1 := by
  unfold sessionsSet
  split <;> simp

theorem sessionsSet_length_of_mem (m : SessionStore) (k : String) (v : SessionRecord)
    (h : (m.find? fun kv => kv.1 == k).isSome) :
    (sessionsSet m k v).length = m.length := by
  unfold sessionsSet
  simp [h]

theorem sessionsDelete_length_le (m : SessionStore) (k : String) :
    (sessionsDelete m k).length ≤ m.length := by
  unfold sessionsDelete
  exact List.length_filter_le _ _

theorem countBoundSent_append (l₁ l₂ : List ReceiverEvent) :
    countBoundSent (l₁ ++ l₂) = countBoundSent l₁ + countBoundSent l₂ := by
  unfold countBoundSent
  rw [List.filter_append, List.length_append]

theorem countBoundSent_ite_stateChanged (c : Prop) [Decidable c] (s : ReceiverState) :
    countBoundSent (if c then [] else [ReceiverEvent.stateChanged s]) = 0 := by
  split <;> rfl

theorem Transmitter.send_eq (t : Transmitter) (ty : MessageType) (msg : SendMsg)
    (nonce : String) (p : ProtectionAlgorithm) (hpr : t.protection = some p) :
    t.send ty msg nonce =
      Except.ok ({ t with prevSeqNo := t.prevSeqNo + 1 },
        [TransmitterEvent.sentPublic (protectFrame p
          { unencrypted :=
              { version := Version.V1
                type := ty
                sessionId := t.sessionId.getD ""
                nonce := nonce
                protectionAlgorithmType := msg.protectionAlgorithmType }
            encrypted :=
              { seqNo := t.prevSeqNo + 1
                transmitterId := msg.transmitterId
                interfaceTypes := msg.interfaceTypes
                interface := msg.interface } })]) := by
  unfold Transmitter.send
  rw [hpr]

theorem countBoundSent_cons_bound (sid : String) (l : List ReceiverEvent) :
    countBoundSent (ReceiverEvent.sentPrivate (PrivateFrame.bound sid) :: l)
      = countBoundSent l + 1 := by
  simp [countBoundSent, List.filter_cons]

/-- Case analysis of one public-bus step: either it sends no BOUND,
leaves the candidate protections untouched and does not grow the session
store, or it is the install step: exactly one BOUND is sent, the
candidate protections are consumed (set to none, and they must have been
present), and the store grows by at most one record. -/
theorem onPublicMsg_install_cases (r : Receiver) (pmsg : ProtectedFrame) :
    (countBoundSent (r.onPublicMsg pmsg).2 = 0
      ∧ (r.onPublicMsg pmsg).1.newProtections = r.newProtections
      ∧ (r.onPublicMsg pmsg).1.sessions.length ≤ r.sessions.length)
    ∨ (countBoundSent (r.onPublicMsg pmsg).2 = 1
      ∧ (r.onPublicMsg pmsg).1.newProtections = none
      ∧ r.newProtections ≠ none
      ∧ (r.onPublicMsg pmsg).1.sessions.length ≤ r.sessions.length + 1) := by
  unfold Receiver.onPublicMsg
  by_cases hb : pmsg.unencrypted.type = MessageType.BIND
  · rw [if_pos hb]
    split
    · left; exact ⟨rfl, rfl, le_refl _⟩
    · next pr heq =>
      split
      · left; exact ⟨rfl, rfl, le_refl _⟩
      · next m heq2 =>
        by_cases hs : r.state = ReceiverState.PAIRING
        · rw [if_pos hs]
          by_cases hn : r.newSessionId = some m.unencrypted.sessionId
          · rw [if_pos hn]
            right
            refine ⟨?_, ?_, ?_, ?_⟩
            · simp [receiver_setState_eq, countBoundSent_cons_bound,
                countBoundSent_ite_stateChanged]
            · simp [receiver_setState_eq]
            · intro hnone
              rw [Receiver.bindProtection, hnone] at heq
              exact Option.noConfusion heq
            · simp only [receiver_setState_eq]
              exact sessionsSet_length_le _ _ _
          · rw [if_neg hn]; left; exact ⟨rfl, rfl, le_refl _⟩
        · rw [if_neg hs]; left; exact ⟨rfl, rfl, le_refl _⟩
  · rw [if_neg hb]
    split
    · left; exact ⟨rfl, rfl, le_refl _⟩
    · next session heq =>
      split
      · left; exact ⟨rfl, rfl, le_refl _⟩
      · next m heq2 =>
        by_cases h1 : m.unencrypted.type = MessageType.UNBIND
        · rw [if_pos h1]
          by_cases hs : r.state = ReceiverState.UNPAIRING
          · rw [if_pos hs]
            left
            refine ⟨?_, ?_, ?_⟩
            · simp [receiver_setState_eq, countBoundSent_ite_stateChanged]
            · simp [receiver_setState_eq]
            · simp only [receiver_setState_eq]
              exact sessionsDelete_length_le _ _
          · rw [if_neg hs]; left; exact ⟨rfl, rfl, le_refl _⟩
        · rw [if_neg h1]
          by_cases h2 : m.unencrypted.type = MessageType.CONFIGURE
          · rw [if_pos h2]
            by_cases hs : r.state = ReceiverState.IDLE
            · rw [if_pos hs]
              left
              refine ⟨?_, ?_, ?_⟩ <;>
                simp [receiver_setState_eq, countBoundSent_ite_stateChanged]
            · rw [if_neg hs]; left; exact ⟨rfl, rfl, le_refl _⟩
          · rw [if_neg h2]
            by_cases h3 : m.unencrypted.type = MessageType.ACT
            · rw [if_pos h3]
              by_cases hs : r.state = ReceiverState.IDLE
                  ∨ r.state = ReceiverState.CONFIGURING
              · rw [if_pos hs]
                by_cases hlt : session.prevSeqNo < m.encrypted.seqNo
                · rw [if_pos hlt]
                  left
                  refine ⟨?_, ?_, ?_⟩
                  · simp [receiver_setState_eq, countBoundSent_append,
                      countBoundSent_ite_stateChanged, countBoundSent]
                  · simp [receiver_setState_eq]
                  · simp only [receiver_setState_eq]
                    have hmem := sessionsGet_isSome
                      (show sessionsGet r.sessions pmsg.unencrypted.sessionId = some session
                        from heq)
                    rw [sessionsSet_length_of_mem _ _ _ hmem]
                · rw [if_neg hlt]
                  left
                  refine ⟨?_, ?_, ?_⟩ <;>
                    simp [receiver_setState_eq, countBoundSent_ite_stateChanged]
              · rw [if_neg hs]; left; exact ⟨rfl, rfl, le_refl _⟩
            · rw [if_neg h3]; left; exact ⟨rfl, rfl, le_refl _⟩

/-- Once the candidate protections are gone, no later public delivery
can send a BOUND, restore them, or grow the session store. -/
theorem runPublic_no_protections (r : Receiver) (l : List ProtectedFrame)
    (h : r.newProtections = none) :
    countBoundSent (r.runPublic l).2 = 0
    ∧ (r.runPublic l).1.newProtections = none
    ∧ (r.runPublic l).1.sessions.length ≤ r.sessions.length := by
  induction l generalizing r with
  | nil => exact ⟨rfl, h, le_refl _⟩
  | cons pmsg rest ih =>
    rcases onPublicMsg_install_cases r pmsg with ⟨hc, hpres, hlen⟩ | ⟨-, -, hnprot, -⟩
    · obtain ⟨ih1, ih2, ih3⟩ := ih (r.onPublicMsg pmsg).1 (hpres.trans h)
      refine ⟨?_, ih2, ?_⟩
      · show countBoundSent ((r.onPublicMsg pmsg).2
            ++ ((r.onPublicMsg pmsg).1.runPublic rest).2) = 0
        rw [countBoundSent_append, hc, ih1]
      · show ((r.onPublicMsg pmsg).1.runPublic rest).1.sessions.length ≤ r.sessions.length
        omega
    · exact absurd h hnprot

/-! ## Claim theorems -/

/-- C2: a BIND frame delivered while the receiver is in any state other
than PAIRING is discarded entirely: `onPublicMsg` returns the receiver
unchanged (no session installed, session count unchanged) and emits no
event (no BOUND sent, no host callback). -/
theorem C2_bind_out_of_state_discarded (r : Receiver) (pmsg : ProtectedFrame)
    (hty : pmsg.unencrypted.type = MessageType.BIND)
    (hst : r.state ≠ ReceiverState.PAIRING) :
    r.onPublicMsg pmsg = (r, []) := by
  unfold Receiver.onPublicMsg
  rw [if_pos hty]
  split
  · rfl
  · split
    · rfl
    · rw [if_neg hst]

/-- C2 witness: a valid BIND arriving at a receiver in IDLE (spec
scenario 3) is discarded with no effect. -/
theorem C2_witness :
    rIdleNoPairing.state ≠ ReceiverState.PAIRING
    ∧ rIdleNoPairing.onPublicMsg bindFrameS2 = (rIdleNoPairing, []) :=
  ⟨by decide, C2_bind_out_of_state_discarded rIdleNoPairing bindFrameS2 rfl (by decide)⟩

/-- C10: calling setConfiguring on a transmitter that has never been
paired (unbound still false, no protection adopted) reaches the internal
send, which throws because no protection algorithm is present. -/
theorem C10_setConfiguring_unpaired_throws (t : Transmitter) (nonce : String)
    (h1 : t.unbound = false) (h2 : t.protection = none) :
    t.setConfiguring nonce = Except.error "Unable to send without being paired" := by
  unfold Transmitter.setConfiguring Transmitter.send
  rw [h1, h2]
  rfl

/-- C10 witness: the freshly constructed transmitter throws from
setConfiguring. -/
theorem C10_witness :
    tFresh.unbound = false
    ∧ tFresh.protection = none
    ∧ tFresh.setConfiguring "N" = Except.error "Unable to send without being paired" :=
  ⟨rfl, rfl, C10_setConfiguring_unpaired_throws tFresh "N" rfl rfl⟩

/-- C9 (code bug): after close, the receiver that had opened a pairing
window still has its periodic HELLO interval armed and its pending
session id and candidate protections set, and the transmitter that had
called setPairing still has its 10 s state timeout armed.  Only the bus
subscriptions are released (so subsequent deliveries are ignored). -/
theorem C9_close_keeps_timers_and_pairing_state :
    rAfterSetPairing.close.pairingInterval = true
    ∧ rAfterSetPairing.close.newSessionId = some "S2"
    ∧ rAfterSetPairing.close.newProtections =
        some [{ type := ProtectionAlgorithmType.AEAD_AES_128_OCB_TAGLEN64, sessionKey := "K" }]
    ∧ tAfterSetPairing.close.stateTimeout = some 10000
    ∧ rAfterSetPairing.close.subscribed = false
    ∧ tAfterSetPairing.close.subscribed = false
    ∧ rAfterSetPairing.close.deliverPublic bindFrameS2 = (rAfterSetPairing.close, []) := by
  decide

/-- C8 (counterexample): while the transmitter awaits BOUND for session
id A, a BOUND frame carrying the different session id B still completes
pairing: unbound becomes false, pairingChanged true fires and the state
goes IDLE.  No session id comparison or decryption happens at all. -/
theorem C8_counterexample_bound_mismatched_sid :
    tAwaitingBound.sessionId = some "A"
    ∧ ("B" : String) ≠ "A"
    ∧ tAwaitingBound.onPrivateMsg (PrivateFrame.bound "B") "N" none =
        Except.ok ({ tAwaitingBound with unbound := false, state := TransmitterState.IDLE },
          [TransmitterEvent.pairingChanged true,
           TransmitterEvent.stateChanged TransmitterState.IDLE]) := by
  refine ⟨rfl, by decide, ?_⟩
  rfl

/-- C8 (amended): while in PAIRING, any BOUND frame received on the
private bus completes pairing (the handler checks neither the session id
nor any decryption): unbound is cleared, the host is notified via
pairingChanged true, and the state goes IDLE; outside PAIRING a BOUND
frame is ignored. -/
theorem C8_bound_completes_pairing (t : Transmitter) (sid nonce : String)
    (fi : Option (List Interface → List InterfaceType)) :
    (t.state = TransmitterState.PAIRING →
      t.onPrivateMsg (PrivateFrame.bound sid) nonce fi =
        Except.ok ({ t with unbound := false, state := TransmitterState.IDLE },
          [TransmitterEvent.pairingChanged true,
           TransmitterEvent.stateChanged TransmitterState.IDLE]))
    ∧ (t.state ≠ TransmitterState.PAIRING →
      t.onPrivateMsg (PrivateFrame.bound sid) nonce fi = Except.ok (t, [])) := by
  constructor
  · intro h
    unfold Transmitter.onPrivateMsg
    rw [if_pos h]
    simp [transmitter_setState_eq, h, Option.or]
  · intro h
    unfold Transmitter.onPrivateMsg
    rw [if_neg h]

/-- C8 witness: both arms of the amended claim at concrete transmitters. -/
theorem C8_witness :
    (tAwaitingBound.onPrivateMsg (PrivateFrame.bound "A") "N" none =
        Except.ok ({ tAwaitingBound with unbound := false, state := TransmitterState.IDLE },
          [TransmitterEvent.pairingChanged true,
           TransmitterEvent.stateChanged TransmitterState.IDLE]))
    ∧ (tPaired.onPrivateMsg (PrivateFrame.bound "A") "N" none = Except.ok (tPaired, [])) :=
  ⟨(C8_bound_completes_pairing tAwaitingBound "A" "N" none).1 rfl,
   (C8_bound_completes_pairing tPaired "A" "N" none).2 (by decide)⟩

/-- C5 (counterexample): an UNBIND decrypted under the only existing
record while in UNPAIRING deletes it and leaves the receiver in IDLE even
though no sessions remain; the claimed transition to CONFIGURING when no
sessions remain does not happen. -/
theorem C5_counterexample_idle_with_no_sessions :
    rUnpairingS.state = ReceiverState.UNPAIRING
    ∧ (deprotectFrame algo64 unbindFrameS).isSome = true
    ∧ sessionsGet rUnpairingS.sessions "S" = some { protection := algo64, prevSeqNo := 5 }
    ∧ (rUnpairingS.onPublicMsg unbindFrameS).1.sessions = []
    ∧ (rUnpairingS.onPublicMsg unbindFrameS).1.state = ReceiverState.IDLE
    ∧ (rUnpairingS.onPublicMsg unbindFrameS).1.state ≠ ReceiverState.CONFIGURING := by
  decide

/-- C5 (amended): while in UNPAIRING, an UNBIND frame that decrypts under
an existing session record deletes exactly that record and transitions
the receiver unconditionally to IDLE, notifying the host via
stateChanged IDLE (even when no sessions remain). -/
theorem C5_unbind_unpairing_deletes (r : Receiver) (pmsg : ProtectedFrame)
    (session : SessionRecord) (msg : Frame)
    (hty : pmsg.unencrypted.type = MessageType.UNBIND)
    (hst : r.state = ReceiverState.UNPAIRING)
    (hfind : r.findTransmitter pmsg = some session)
    (hdep : deprotectFrame session.protection pmsg = some msg) :
    r.onPublicMsg pmsg =
      ({ r with
          sessions := sessionsDelete r.sessions pmsg.unencrypted.sessionId
          state := ReceiverState.IDLE
          pairingInterval := false },
       [ReceiverEvent.stateChanged ReceiverState.IDLE]) := by
  obtain ⟨hmsg, -⟩ := deprotectFrame_eq hdep
  subst hmsg
  unfold Receiver.onPublicMsg
  rw [if_neg (by rw [hty]; decide)]
  split
  · next heq => simp [hfind] at heq
  · next s heq =>
    rw [hfind] at heq
    injection heq with h
    subst h
    split
    · next heq2 => rw [hdep] at heq2; exact Option.noConfusion heq2
    · next m heq2 =>
      rw [hdep] at heq2
      injection heq2 with h2
      subst h2
      rw [if_pos hty, if_pos hst]
      simp [receiver_setState_eq, hst, Option.or]

/-- C5 witness: the amended claim at the concrete unpairing receiver. -/
theorem C5_witness :
    rUnpairingS.onPublicMsg unbindFrameS =
      ({ rUnpairingS with
          sessions := sessionsDelete rUnpairingS.sessions "S"
          state := ReceiverState.IDLE
          pairingInterval := false },
       [ReceiverEvent.stateChanged ReceiverState.IDLE]) :=
  C5_unbind_unpairing_deletes rUnpairingS unbindFrameS
    { protection := algo64, prevSeqNo := 5 }
    { unencrypted := unbindFrameS.unencrypted, encrypted := unbindFrameS.protectedPart }
    rfl rfl rfl rfl

/-- C7: unpair while paired sends one encrypted UNBIND frame, sets
unbound, fires pairingChanged false, and retains the protection (session
key) and session id unchanged. -/
theorem C7_unpair_emits_unbind (t : Transmitter) (nonce : String) (p : ProtectionAlgorithm)
    (hp : t.isPaired = true) (hpr : t.protection = some p) :
    ∃ f : ProtectedFrame,
      t.unpair nonce =
        Except.ok ({ t with prevSeqNo := t.prevSeqNo + 1, unbound := true },
          [TransmitterEvent.sentPublic f, TransmitterEvent.pairingChanged false])
      ∧ f.unencrypted.type = MessageType.UNBIND
      ∧ f.algo = p
      ∧ ({ t with prevSeqNo := t.prevSeqNo + 1, unbound := true } : Transmitter).protection
          = t.protection
      ∧ ({ t with prevSeqNo := t.prevSeqNo + 1, unbound := true } : Transmitter).sessionId
          = t.sessionId := by
  refine ⟨protectFrame p
    { unencrypted :=
        { version := Version.V1
          type := MessageType.UNBIND
          sessionId := t.sessionId.getD ""
          nonce := nonce
          protectionAlgorithmType := ProtectionAlgorithmType.UNKNOWN }
      encrypted :=
        { seqNo := t.prevSeqNo + 1
          transmitterId := t.id
          interfaceTypes := []
          interface := InterfaceType.UNKNOWN } }, ?_, rfl, rfl, rfl, rfl⟩
  unfold Transmitter.unpair Transmitter.send
  rw [hp, hpr]
  rfl

/-- C7 witness: the paired concrete transmitter. -/
theorem C7_witness :
    ∃ f : ProtectedFrame,
      tPaired.unpair "N" =
        Except.ok ({ tPaired with prevSeqNo := tPaired.prevSeqNo + 1, unbound := true },
          [TransmitterEvent.sentPublic f, TransmitterEvent.pairingChanged false])
      ∧ f.unencrypted.type = MessageType.UNBIND
      ∧ f.algo = algo64
      ∧ ({ tPaired with prevSeqNo := tPaired.prevSeqNo + 1, unbound := true } : Transmitter).protection
          = tPaired.protection
      ∧ ({ tPaired with prevSeqNo := tPaired.prevSeqNo + 1, unbound := true } : Transmitter).sessionId
          = tPaired.sessionId :=
  C7_unpair_emits_unbind tPaired "N" algo64 (by decide) rfl

/-- C6: act on an unpaired transmitter (no session id adopted, or unbound
after unpair) is a silent no-op: same state, no events; while paired (and
hence not unbound) with an adopted protection, act emits exactly one
public frame, an ACT whose encrypted interface field equals the
interface of the action. -/
theorem C6_act_requires_pairing (t : Transmitter) (action : Action) (nonce : String) :
    (t.isPaired = false → t.act action nonce = Except.ok (t, []))
    ∧ (∀ p : ProtectionAlgorithm, t.isPaired = true → t.protection = some p →
        ∃ t1 pre f, t.act action nonce = Except.ok (t1, pre ++ [TransmitterEvent.sentPublic f])
          ∧ f.unencrypted.type = MessageType.ACT
          ∧ f.protectedPart.interface = action.interface
          ∧ f.algo = p) := by
  constructor
  · intro h
    unfold Transmitter.act
    rw [h]
    rfl
  · intro p hp hpr
    unfold Transmitter.act
    rw [if_neg (show ¬((!t.isPaired) = true) by rw [hp]; decide)]
    by_cases hs : t.state = TransmitterState.IDLE
    · refine ⟨{ t with prevSeqNo := t.prevSeqNo + 1 }, [],
        protectFrame p
          { unencrypted :=
              { version := Version.V1
                type := MessageType.ACT
                sessionId := t.sessionId.getD ""
                nonce := nonce
                protectionAlgorithmType := ProtectionAlgorithmType.UNKNOWN }
            encrypted :=
              { seqNo := t.prevSeqNo + 1
                transmitterId := ""
                interfaceTypes := []
                interface := action.interface } }, ?_, rfl, rfl, rfl⟩
      rw [if_neg (show ¬(t.state ≠ TransmitterState.IDLE) from fun h => h hs)]
      dsimp only
      rw [Transmitter.send_eq t MessageType.ACT { interface := action.interface } nonce p hpr]
    · refine ⟨{ t with state := TransmitterState.IDLE, prevSeqNo := t.prevSeqNo + 1 },
        [TransmitterEvent.stateChanged TransmitterState.IDLE],
        protectFrame p
          { unencrypted :=
              { version := Version.V1
                type := MessageType.ACT
                sessionId := t.sessionId.getD ""
                nonce := nonce
                protectionAlgorithmType := ProtectionAlgorithmType.UNKNOWN }
            encrypted :=
              { seqNo := t.prevSeqNo + 1
                transmitterId := ""
                interfaceTypes := []
                interface := action.interface } }, ?_, rfl, rfl, rfl⟩
      rw [if_pos hs]
      simp only [transmitter_setState_eq, Option.or, if_neg hs]
      rw [Transmitter.send_eq ({ t with state := TransmitterState.IDLE })
        MessageType.ACT { interface := action.interface } nonce p hpr]

/-- C6 witness: both arms at concrete transmitters. -/
theorem C6_witness :
    (tFresh.act { interface := InterfaceType.BUTTON_ACT } "N" = Except.ok (tFresh, []))
    ∧ (∃ t1 pre f,
        tPaired.act { interface := InterfaceType.BUTTON_ACT } "N"
            = Except.ok (t1, pre ++ [TransmitterEvent.sentPublic f])
          ∧ f.unencrypted.type = MessageType.ACT
          ∧ f.protectedPart.interface = InterfaceType.BUTTON_ACT
          ∧ f.algo = algo64) :=
  ⟨(C6_act_requires_pairing tFresh { interface := InterfaceType.BUTTON_ACT } "N").1 rfl,
   (C6_act_requires_pairing tPaired { interface := InterfaceType.BUTTON_ACT } "N").2
     algo64 (by decide) rfl⟩

/-- C1 (counterexample): replaying the last accepted ACT frame at a
receiver in IDLE invokes no act callback and leaves the accepted
sequence number at 5, but it does change receiver state: the receiver
moves from IDLE to CONFIGURING (re-arming a 10 s window), so the claim
that all receiver state is left unchanged fails. -/
theorem C1_counterexample_replay_changes_state :
    sessionsGet rIdleS5.sessions actReplayFrame.unencrypted.sessionId
        = some { protection := algo64, prevSeqNo := 5 }
    ∧ (deprotectFrame algo64 actReplayFrame).isSome = true
    ∧ actReplayFrame.protectedPart.seqNo ≤ 5
    ∧ rIdleS5.state = ReceiverState.IDLE
    ∧ (rIdleS5.onPublicMsg actReplayFrame).1.state = ReceiverState.CONFIGURING
    ∧ (rIdleS5.onPublicMsg actReplayFrame).1 ≠ rIdleS5 := by
  decide

/-- C1 (amended): an ACT frame that decrypts under a known session but
whose sequence number is not strictly greater than the session record
prevSeqNo never invokes the host act callback and leaves the session
store (hence the accepted sequence number) and the pending pairing
fields unchanged; the receiver may nonetheless move to CONFIGURING and
re-arm its window. -/
theorem C1_act_replay_discarded (r : Receiver) (pmsg : ProtectedFrame)
    (session : SessionRecord) (msg : Frame)
    (hty : pmsg.unencrypted.type = MessageType.ACT)
    (hfind : r.findTransmitter pmsg = some session)
    (hdep : deprotectFrame session.protection pmsg = some msg)
    (hseq : msg.encrypted.seqNo ≤ session.prevSeqNo) :
    (r.onPublicMsg pmsg).1.sessions = r.sessions
    ∧ (r.onPublicMsg pmsg).1.newSessionId = r.newSessionId
    ∧ (r.onPublicMsg pmsg).1.newProtections = r.newProtections
    ∧ ∀ a, ReceiverEvent.act a ∉ (r.onPublicMsg pmsg).2 := by
  obtain ⟨hmsg, -⟩ := deprotectFrame_eq hdep
  subst hmsg
  have hlt : ¬ session.prevSeqNo < pmsg.protectedPart.seqNo := Nat.not_lt.mpr hseq
  unfold Receiver.onPublicMsg
  rw [if_neg (by rw [hty]; decide)]
  split
  · next heq => simp [hfind] at heq
  · next s heq =>
    rw [hfind] at heq
    injection heq with h
    subst h
    split
    · next heq2 => rw [hdep] at heq2; exact Option.noConfusion heq2
    · next m heq2 =>
      rw [hdep] at heq2
      injection heq2 with h2
      subst h2
      rw [if_neg (by rw [hty]; decide), if_neg (by rw [hty]; decide), if_pos hty]
      by_cases hs : r.state = ReceiverState.IDLE ∨ r.state = ReceiverState.CONFIGURING
      · rw [if_pos hs, if_neg hlt]
        refine ⟨by simp [receiver_setState_eq], by simp [receiver_setState_eq],
          by simp [receiver_setState_eq], ?_⟩
        intro a
        simp only [receiver_setState_eq]
        split <;> simp
      · rw [if_neg hs]
        exact ⟨rfl, rfl, rfl, fun a => List.not_mem_nil _⟩

/-- C1 witness: the amended claim at the concrete replay input. -/
theorem C1_witness :
    (rIdleS5.onPublicMsg actReplayFrame).1.sessions = rIdleS5.sessions
    ∧ (rIdleS5.onPublicMsg actReplayFrame).1.newSessionId = rIdleS5.newSessionId
    ∧ (rIdleS5.onPublicMsg actReplayFrame).1.newProtections = rIdleS5.newProtections
    ∧ ∀ a, ReceiverEvent.act a ∉ (rIdleS5.onPublicMsg actReplayFrame).2 :=
  C1_act_replay_discarded rIdleS5 actReplayFrame
    { protection := algo64, prevSeqNo := 5 }
    { unencrypted := actReplayFrame.unencrypted, encrypted := actReplayFrame.protectedPart }
    rfl rfl rfl (by decide)

/-- C3: while in PAIRING, a BIND frame whose unencrypted protection
algorithm type matches a pending candidate (bindProtection succeeds),
whose decryption succeeds, and whose session id equals the pending one
installs a session record with prevSeqNo equal to the frame sequence
number, sends BOUND on the private bus, and moves to CONFIGURING with a
30 s window. -/
theorem C3_bind_pairing_installs (r : Receiver) (pmsg : ProtectedFrame)
    (protection : ProtectionAlgorithm) (msg : Frame)
    (hty : pmsg.unencrypted.type = MessageType.BIND)
    (hst : r.state = ReceiverState.PAIRING)
    (hp : r.bindProtection pmsg = some protection)
    (hdep : deprotectFrame protection pmsg = some msg)
    (hsid : r.newSessionId = some pmsg.unencrypted.sessionId) :
    (r.onPublicMsg pmsg).1 =
      { r with
          sessions := sessionsSet r.sessions pmsg.unencrypted.sessionId
            { protection := protection, prevSeqNo := pmsg.protectedPart.seqNo }
          newSessionId := none
          newProtections := none
          state := ReceiverState.CONFIGURING
          stateTimeout := some 30000
          pairingInterval := false }
    ∧ (r.onPublicMsg pmsg).2 =
        [ReceiverEvent.sentPrivate (PrivateFrame.bound pmsg.unencrypted.sessionId),
         ReceiverEvent.stateChanged ReceiverState.CONFIGURING]
    ∧ sessionsGet (r.onPublicMsg pmsg).1.sessions pmsg.unencrypted.sessionId
        = some { protection := protection, prevSeqNo := pmsg.protectedPart.seqNo } := by
  obtain ⟨hmsg, -⟩ := deprotectFrame_eq hdep
  subst hmsg
  unfold Receiver.onPublicMsg
  rw [if_pos hty]
  split
  · next heq => rw [hp] at heq; exact Option.noConfusion heq
  · next pr heq =>
    rw [hp] at heq
    injection heq with h
    subst h
    split
    · next heq2 => rw [hdep] at heq2; exact Option.noConfusion heq2
    · next m heq2 =>
      rw [hdep] at heq2
      injection heq2 with h2
      subst h2
      rw [if_pos hst, if_pos hsid]
      refine ⟨?_, ?_, ?_⟩
      · simp [receiver_setState_eq, Option.or]
      · simp [receiver_setState_eq, hst]
      · simp only [receiver_setState_eq]
        exact sessionsGet_set_self _ _ _

/-- C3 witness: the happy-pairing BIND at the concrete pairing receiver. -/
theorem C3_witness :
    (rPairingS2.onPublicMsg bindFrameS2).1 =
      { rPairingS2 with
          sessions := sessionsSet rPairingS2.sessions "S2"
            { protection := algo64, prevSeqNo := 1 }
          newSessionId := none
          newProtections := none
          state := ReceiverState.CONFIGURING
          stateTimeout := some 30000
          pairingInterval := false }
    ∧ (rPairingS2.onPublicMsg bindFrameS2).2 =
        [ReceiverEvent.sentPrivate (PrivateFrame.bound "S2"),
         ReceiverEvent.stateChanged ReceiverState.CONFIGURING]
    ∧ sessionsGet (rPairingS2.onPublicMsg bindFrameS2).1.sessions "S2"
        = some { protection := algo64, prevSeqNo := 1 } :=
  C3_bind_pairing_installs rPairingS2 bindFrameS2 algo64
    { unencrypted := bindFrameS2.unencrypted, encrypted := bindFrameS2.protectedPart }
    rfl rfl (by decide) (by decide) rfl

/-- C4: across any sequence of public-bus deliveries, from any receiver
state, at most one BOUND is sent (the install step runs at most once) and
the session store grows by at most one record; in particular a single
pairing window installs at most one session, by the first successful
BIND. -/
theorem C4_at_most_one_install (r : Receiver) (l : List ProtectedFrame) :
    countBoundSent (r.runPublic l).2 ≤ 1
    ∧ (r.runPublic l).1.sessions.length ≤ r.sessions.length + 1 := by
  induction l generalizing r with
  | nil => exact ⟨Nat.zero_le 1, Nat.le_succ _⟩
  | cons pmsg rest ih =>
    rcases onPublicMsg_install_cases r pmsg with ⟨hc, -, hlen⟩ | ⟨hc, hnone, -, hlen⟩
    · obtain ⟨ih1, ih2⟩ := ih (r.onPublicMsg pmsg).1
      constructor
      · show countBoundSent ((r.onPublicMsg pmsg).2
            ++ ((r.onPublicMsg pmsg).1.runPublic rest).2) ≤ 1
        rw [countBoundSent_append, hc]
        omega
      · show ((r.onPublicMsg pmsg).1.runPublic rest).1.sessions.length
            ≤ r.sessions.length + 1
        omega
    · obtain ⟨a1, -, a3⟩ := runPublic_no_protections (r.onPublicMsg pmsg).1 rest hnone
      constructor
      · show countBoundSent ((r.onPublicMsg pmsg).2
            ++ ((r.onPublicMsg pmsg).1.runPublic rest).2) ≤ 1
        rw [countBoundSent_append, hc, a1]
      · show ((r.onPublicMsg pmsg).1.runPublic rest).1.sessions.length
            ≤ r.sessions.length + 1
        omega

end Openepo
